import Mathlib

/-!
Shallow embedding of `src/fetchers/repo.js` from the
readme-update-coding-stats repository, together with theorems checking the
natural-language specification against it.

Modelling conventions:
- JavaScript objects whose shape is fixed by the GraphQL queries are
  embedded as Lean structures; a field that the remote service may set to
  `null` is an `Option`.
- The metadata response distinguishes a field that is strictly `null` from
  one that is absent (`undefined`), because `fetchRepoMeta` tests
  `data.organization === null` with strict equality; the three-valued
  `JsField` type captures present / null / undefined.
- `JSON.stringify`-keyed deduplication through a JS `Set` is modelled as
  first-occurrence deduplication under structural equality (`DecidableEq`):
  two records serialize to the same string exactly when every field is
  equal, and a JS `Set` preserves first-insertion order.
- Thrown errors become the `Except` monad; `new Error(msg)` is
  `FetchError.error msg` and `MissingParamError(params, url)` is
  `FetchError.missingParam params url`.
- The three network round-trips are modelled by passing the three remote
  responses explicitly in a `RemoteEnv`; the orchestration in `fetchRepo`
  consumes them in the source's sequential order.
-/

/-- A linked GitHub user inside a commit's author, as selected by the
commit-history query: `{ id, login }`. -/
structure UserRef where
  id : String
  login : String
deriving DecidableEq

/-- The `author` field of a commit record; `user` is `null` for unlinked
authors. -/
structure CommitAuthor where
  user : Option UserRef
deriving DecidableEq

/-- One commit record as listed under `history.nodes`: oid, message
headline, committed date, author, and line-change counts.  `additions` and
`deletions` are `none` when the field is missing from the payload (the
source guards them with `|| 0`). -/
structure CommitRecord where
  oid : String
  messageHeadline : String
  committedDate : String
  author : CommitAuthor
  additions : Option Nat
  deletions : Option Nat
deriving DecidableEq

/-- The `history` object of one branch ref: a list of commit records. -/
structure CommitHistory where
  nodes : List CommitRecord
deriving DecidableEq

/-- The `target` object of one branch ref. -/
structure BranchTarget where
  history : CommitHistory
deriving DecidableEq

/-- One element of `repository.refs.nodes`: a named branch ref carrying a
commit history. -/
structure BranchHistory where
  name : String
  target : BranchTarget
deriving DecidableEq

/-- All commits of all branches, flattened in order:
`branchesCommits.map(node => node.target.history.nodes).flat()`. -/
def allBranchCommits (branchesCommits : List BranchHistory) : List CommitRecord :=
  (branchesCommits.map fun node => node.target.history.nodes).flatten

/-- Adds a record to the accumulator unless an equal record is already
present; this is the effect of inserting its serialization into a JS
`Set`, which keeps first-insertion order. -/
def insertUnique (acc : List CommitRecord) (c : CommitRecord) : List CommitRecord :=
  if c ∈ acc then acc else acc ++ [c]

/-- First-occurrence deduplication under structural equality, the order a
JS `Set` enumerates the inserted serializations in. -/
def setDedup (l : List CommitRecord) : List CommitRecord :=
  l.foldl insertUnique []

/-- Embedding of `filterDuplicateCommits`: flatten every branch's
`history.nodes`, serialize each record, route the strings through a `Set`,
and parse the survivors back.  Serialization equality is structural
equality of the record, so the result is the flattened list deduplicated
by full structural equality, first occurrences surviving. -/
def filterDuplicateCommits (branchesCommits : List BranchHistory) : List CommitRecord :=
  setDedup (allBranchCommits branchesCommits)

/-- Aggregate totals returned by the Commit Reconciler:
`{ additionsCount, deletionsCount }`. -/
structure CommitStats where
  additionsCount : Nat
  deletionsCount : Nat
deriving DecidableEq

/-- Model of `String.prototype.toLowerCase()` applied to a login: lower-case
every character.  Defined by explicit character mapping so that it
evaluates by kernel reduction. -/
def jsToLower (s : String) : String :=
  String.mk (s.data.map Char.toLower)

/-- One iteration of the loop in `totalAdditionsAndDeletionsByUser`: if the
commit has a linked user whose login matches the requested username
case-insensitively, add its `additions || 0` and `deletions || 0` to the
running totals. -/
def commitStep (username : String) (s : CommitStats) (c : CommitRecord) : CommitStats :=
  match c.author.user with
  | some u =>
    if jsToLower u.login = jsToLower username then
      ⟨s.additionsCount + c.additions.getD 0, s.deletionsCount + c.deletions.getD 0⟩
    else s
  | none => s

/-- The loop of `totalAdditionsAndDeletionsByUser` over an already
deduplicated commit list, starting from zero totals. -/
def aggregateCommits (commits : List CommitRecord) (username : String) : CommitStats :=
  commits.foldl (commitStep username) ⟨0, 0⟩

/-- Embedding of `totalAdditionsAndDeletionsByUser`: deduplicate the
branch histories, then sum additions and deletions of the commits whose
author's login matches `username` case-insensitively. -/
def totalAdditionsAndDeletionsByUser (branchesCommits : List BranchHistory)
    (username : String) : CommitStats :=
  aggregateCommits (filterDuplicateCommits branchesCommits) username

/-- Spec-side matching predicate, written from the spec's words: the
record's `author.user` is non-null and its login equals the requested
login case-insensitively.  Used to state the refinement claims about the
aggregation loop. -/
def specMatchesUser (username : String) (c : CommitRecord) : Bool :=
  match c.author.user with
  | some u => jsToLower u.login == jsToLower username
  | none => false

/-- The error values that the fetchers throw: `new Error(message)` and
`MissingParamError(missedParams, urlExample)`.

Modelled from the spec: the class body of `MissingParamError` lives in
`src/common/utils.js`, which is not part of the sources; following the
spec it is a parameter-validation error carrying exactly the list of
missing parameter names handed to its constructor (plus the example URL). -/
inductive FetchError where
  | error (message : String)
  | missingParam (missedParams : List String) (urlExample : String)
deriving DecidableEq

deriving instance DecidableEq for Except

/-- A field of a parsed JSON response that JavaScript code may probe with
both truthiness and strict `=== null` comparison: it is either absent
(`undefined`), `null`, or a present value. -/
inductive JsField (α : Type) where
  | undef
  | null
  | val (a : α)
deriving DecidableEq

/-- Truthiness of a `JsField`: `undefined` and `null` are falsy, an object
is truthy. -/
def JsField.isTruthy : JsField α → Bool
  | .val _ => true
  | _ => false

/-- Strict `=== null` comparison on a `JsField`. -/
def JsField.isNull : JsField α → Bool
  | .null => true
  | _ => false

/-- The `stargazers` selection of the repository fragment. -/
structure Stargazers where
  totalCount : Nat
deriving DecidableEq

/-- The `primaryLanguage` selection of the repository fragment. -/
structure PrimaryLanguage where
  color : String
  id : String
  name : String
deriving DecidableEq

/-- The repository fields selected by the `RepoInfo` fragment of the
metadata query. -/
structure Repository where
  name : String
  nameWithOwner : String
  isPrivate : Bool
  isArchived : Bool
  isTemplate : Bool
  stargazers : Stargazers
  description : String
  primaryLanguage : Option PrimaryLanguage
  forkCount : Nat
deriving DecidableEq

/-- One owner namespace of the metadata response (`user` or
`organization`): its `repository` field is `null` when the namespace does
not hold the target repository. -/
structure RepoOwner where
  repository : Option Repository
deriving DecidableEq

/-- The `data` object of the metadata response: parallel `user` and
`organization` lookups. -/
structure MetaResponse where
  user : JsField RepoOwner
  organization : JsField RepoOwner
deriving DecidableEq

/-- The record returned by `fetchRepoMeta`: the spread of the repository
fields plus the derived `starCount`. -/
structure RepoMeta where
  name : String
  nameWithOwner : String
  isPrivate : Bool
  isArchived : Bool
  isTemplate : Bool
  stargazers : Stargazers
  description : String
  primaryLanguage : Option PrimaryLanguage
  forkCount : Nat
  starCount : Nat
deriving DecidableEq

/-- The spread `{...repository, starCount: repository.stargazers.totalCount}`
built in both success branches of `fetchRepoMeta`. -/
def repoMetaOf (r : Repository) : RepoMeta :=
  ⟨r.name, r.nameWithOwner, r.isPrivate, r.isArchived, r.isTemplate, r.stargazers,
    r.description, r.primaryLanguage, r.forkCount, r.stargazers.totalCount⟩

/-- The shared body of the two owner branches of `fetchRepoMeta`:
`if (!owner.repository || owner.repository.isPrivate) throw errMsg` and
otherwise return the spread record. -/
def ownerRepoMeta (o : RepoOwner) (errMsg : String) : Except FetchError RepoMeta :=
  match o.repository with
  | none => .error (.error errMsg)
  | some r =>
    if r.isPrivate then .error (.error errMsg)
    else .ok (repoMetaOf r)

/-- Embedding of `fetchRepoMeta` applied to the `data` object of the
metadata response.  It mirrors the source's control flow:
`if (!data.user && !data.organization) throw "Not found"`, then
`isUser = data.organization === null && data.user`,
`isOrg = data.user === null && data.organization`, the two owner
branches, and the final `throw "Unexpected behavior"`. -/
def fetchRepoMeta (data : MetaResponse) : Except FetchError RepoMeta :=
  if !data.user.isTruthy && !data.organization.isTruthy then
    .error (.error "Not found")
  else if data.organization.isNull && data.user.isTruthy then
    match data.user with
    | .val o => ownerRepoMeta o "User Repository Not found"
    | _ => .error (.error "Unexpected behavior")
  else if data.user.isNull && data.organization.isTruthy then
    match data.organization with
    | .val o => ownerRepoMeta o "Organization Repository Not found"
    | _ => .error (.error "Unexpected behavior")
  else
    .error (.error "Unexpected behavior")

/-- The `user` object of the identity query response: `{ id }`. -/
structure UserId where
  id : String
deriving DecidableEq

/-- The `data` object of the identity query response: `user` is `null`
when the login does not resolve. -/
structure IdResponse where
  user : Option UserId
deriving DecidableEq

/-- The `refs` object of the commit query response. -/
structure RepoRefs where
  nodes : List BranchHistory
deriving DecidableEq

/-- The `repository` object of the commit query response; `refs` is `none`
when the response carries no branch-ref data. -/
structure CommitsRepository where
  refs : Option RepoRefs
deriving DecidableEq

/-- The `data` object of the commit query response. -/
structure CommitsResponse where
  repository : Option CommitsRepository
deriving DecidableEq

/-- Embedding of `fetchRepoCommits`.  The two network responses (identity
lookup, then repository/refs lookup) are passed explicitly; the source
awaits them in this order and throws `"Not found"` when the identity
lookup yields a null user, `"Repository or refs not found"` when the
repository or its ref list is absent, `"No commits found"` when the ref
list has zero entries, and otherwise delegates the ref nodes to
`totalAdditionsAndDeletionsByUser` scoped to `username`. -/
def fetchRepoCommits (username : String) (idRes : IdResponse)
    (commitsRes : CommitsResponse) : Except FetchError CommitStats :=
  match idRes.user with
  | none => .error (.error "Not found")
  | some _uid =>
    match commitsRes.repository with
    | none => .error (.error "Repository or refs not found")
    | some repo =>
      match repo.refs with
      | none => .error (.error "Repository or refs not found")
      | some refs =>
        if refs.nodes.length = 0 then .error (.error "No commits found")
        else .ok (totalAdditionsAndDeletionsByUser refs.nodes username)

/-- The example URL cited by every `MissingParamError` of `fetchRepo`. -/
def urlExample : String := "/api/pin?username=USERNAME&amp;repo=REPO_NAME"

/-- Field values occurring in the final merged record, so that the record
can be modelled as a JavaScript object (an ordered list of string-keyed
fields) the way the source builds it by spreading. -/
inductive FieldVal where
  | str (s : String)
  | nat (n : Nat)
  | bool (b : Bool)
  | stars (s : Stargazers)
  | lang (l : Option PrimaryLanguage)
deriving DecidableEq

/-- The object form of the `fetchRepoMeta` result, key by key in the order
the spread `{...data.owner.repository, starCount: ...}` lays them out. -/
def RepoMeta.toObj (m : RepoMeta) : List (String × FieldVal) :=
  [("name", .str m.name), ("nameWithOwner", .str m.nameWithOwner),
    ("isPrivate", .bool m.isPrivate), ("isArchived", .bool m.isArchived),
    ("isTemplate", .bool m.isTemplate), ("stargazers", .stars m.stargazers),
    ("description", .str m.description), ("primaryLanguage", .lang m.primaryLanguage),
    ("forkCount", .nat m.forkCount), ("starCount", .nat m.starCount)]

/-- The object form of the `totalAdditionsAndDeletionsByUser` result:
`{ additionsCount, deletionsCount }`. -/
def CommitStats.toObj (s : CommitStats) : List (String × FieldVal) :=
  [("additionsCount", .nat s.additionsCount), ("deletionsCount", .nat s.deletionsCount)]

/-- JavaScript object spread `{...a, ...b}`: the keys of `a` in order with
values overridden by `b` on collision, followed by the keys of `b` not
already in `a`. -/
def spreadMerge (a b : List (String × FieldVal)) : List (String × FieldVal) :=
  (a.map fun p =>
    match b.find? (fun q => q.1 == p.1) with
    | some q => (p.1, q.2)
    | none => p) ++
  b.filter fun q => !(a.any fun p => p.1 == q.1)

/-- Property lookup on an object modelled as an ordered field list. -/
def getField (o : List (String × FieldVal)) (k : String) : Option FieldVal :=
  (o.find? fun p => p.1 == k).map fun p => p.2

/-- The three remote responses one invocation of `fetchRepo` consumes, in
the order the source awaits them: the metadata response, then the
identity response, then the commit response. -/
structure RemoteEnv where
  metaRes : MetaResponse
  idRes : IdResponse
  commitsRes : CommitsResponse
deriving DecidableEq

/-- Embedding of `fetchRepo`: validate that `username` and `reponame` are
non-empty (JavaScript falsiness of a string parameter), throwing a
`MissingParamError` that names the missing parameters, then fetch the
metadata, then the commit stats, and merge both records by the spread
`{...repoMeta, ...repoCommits}`. -/
def fetchRepo (username reponame : String) (env : RemoteEnv) :
    Except FetchError (List (String × FieldVal)) :=
  if username = "" ∧ reponame = "" then
    .error (.missingParam ["username", "repo"] urlExample)
  else if username = "" then
    .error (.missingParam ["username"] urlExample)
  else if reponame = "" then
    .error (.missingParam ["repo"] urlExample)
  else
    match fetchRepoMeta env.metaRes with
    | .error e => .error e
    | .ok repoMeta =>
      match fetchRepoCommits username env.idRes env.commitsRes with
      | .error e => .error e
      | .ok repoCommits => .ok (spreadMerge repoMeta.toObj repoCommits.toObj)

/-- Spec-side failure condition for one owner namespace, written from the
spec's words: the nested repository field is null, or its private flag is
true. -/
def specOwnerRepoBad (o : RepoOwner) : Prop :=
  o.repository = none ∨ ∃ r, o.repository = some r ∧ r.isPrivate = true

/-- A commit author linked to the sample user `testuser`. -/
def sampleAuthor : CommitAuthor := ⟨some ⟨"1", "testuser"⟩⟩

/-- Sample commit with 10 additions and 5 deletions. -/
def sampleCommitA : CommitRecord :=
  ⟨"abc123", "first", "2024-01-01", sampleAuthor, some 10, some 5⟩

/-- Sample commit with 15 additions and 3 deletions. -/
def sampleCommitB : CommitRecord :=
  ⟨"def456", "second", "2024-01-02", sampleAuthor, some 15, some 3⟩

/-- A record with the same oid as `sampleCommitB` but a different
`additions` field. -/
def sampleCommitB2 : CommitRecord :=
  ⟨"def456", "second", "2024-01-02", sampleAuthor, some 99, some 3⟩

/-- Builds one branch ref around a list of commit records. -/
def mkBranch (name : String) (commits : List CommitRecord) : BranchHistory :=
  ⟨name, ⟨⟨commits⟩⟩⟩

/-- Sample public repository with zero stargazers and zero forks. -/
def sampleRepository : Repository :=
  ⟨"tlsscanner", "testuser/tlsscanner", false, false, false, ⟨0⟩, "", none, 0⟩

/-- Remote responses for the end-to-end scenario of the spec: a user-owned
public repository and two branches contributing one commit each, authored
by the requested user, with no overlap. -/
def sampleEnv : RemoteEnv :=
  ⟨⟨.val ⟨some sampleRepository⟩, .null⟩, ⟨some ⟨"1"⟩⟩,
    ⟨some ⟨some ⟨[mkBranch "main" [sampleCommitA], mkBranch "dev" [sampleCommitB]]⟩⟩⟩⟩

/-- The record `fetchRepo` produces in the end-to-end scenario. -/
def sampleMergedRecord : List (String × FieldVal) :=
  spreadMerge (repoMetaOf sampleRepository).toObj (CommitStats.mk 25 8).toObj

/-- Remote responses in which every lookup comes back empty. -/
def emptyEnv : RemoteEnv := ⟨⟨.undef, .undef⟩, ⟨none⟩, ⟨none⟩⟩

/-- Membership in `insertUnique acc a`: the accumulated records plus `a`. -/
theorem mem_insertUnique {acc : List CommitRecord} {a c : CommitRecord} :
    c ∈ insertUnique acc a ↔ c ∈ acc ∨ c = a := by
  unfold insertUnique
  by_cases h : a ∈ acc
  · rw [if_pos h]
    constructor
    · exact Or.inl
    · rintro (hc | rfl)
      · exact hc
      · exact h
  · rw [if_neg h]
    simp

/-- The `insertUnique` step keeps the accumulator duplicate-free. -/
theorem nodup_insertUnique {acc : List CommitRecord} (a : CommitRecord)
    (h : acc.Nodup) : (insertUnique acc a).Nodup := by
  unfold insertUnique
  by_cases ha : a ∈ acc
  · rwa [if_pos ha]
  · rw [if_neg ha, List.nodup_append]
    refine ⟨h, List.nodup_singleton a, fun x hx hxa => ?_⟩
    rw [List.mem_singleton] at hxa
    subst hxa
    exact ha hx

/-- Membership in the fold that models the JS `Set`: everything already
accumulated plus everything inserted. -/
theorem mem_foldl_insertUnique (l : List CommitRecord) :
    ∀ (acc : List CommitRecord) (c : CommitRecord),
      c ∈ l.foldl insertUnique acc ↔ c ∈ acc ∨ c ∈ l := by
  induction l with
  | nil => intro acc c; simp
  | cons a t ih =>
    intro acc c
    rw [List.foldl_cons, ih, mem_insertUnique, List.mem_cons, or_assoc]

/-- The fold that models the JS `Set` produces a duplicate-free list. -/
theorem nodup_foldl_insertUnique (l : List CommitRecord) :
    ∀ acc : List CommitRecord, acc.Nodup → (l.foldl insertUnique acc).Nodup := by
  induction l with
  | nil => intro acc h; exact h
  | cons a t ih =>
    intro acc h
    rw [List.foldl_cons]
    exact ih _ (nodup_insertUnique a h)

/-- A record survives deduplication exactly when it occurs in some
branch's history. -/
theorem mem_filterDuplicateCommits {bc : List BranchHistory} {c : CommitRecord} :
    c ∈ filterDuplicateCommits bc ↔ c ∈ allBranchCommits bc := by
  unfold filterDuplicateCommits setDedup
  rw [mem_foldl_insertUnique]
  simp

/-- The deduplicated commit list is duplicate-free. -/
theorem nodup_filterDuplicateCommits (bc : List BranchHistory) :
    (filterDuplicateCommits bc).Nodup :=
  nodup_foldl_insertUnique _ _ List.nodup_nil

/-- Unfolding the aggregation loop of `totalAdditionsAndDeletionsByUser`
over any commit list and any starting totals. -/
theorem foldl_commitStep (username : String) (l : List CommitRecord) :
    ∀ s : CommitStats,
      l.foldl (commitStep username) s =
        ⟨s.additionsCount + ((l.filter (specMatchesUser username)).map
            fun c => c.additions.getD 0).sum,
          s.deletionsCount + ((l.filter (specMatchesUser username)).map
            fun c => c.deletions.getD 0).sum⟩ := by
  induction l with
  | nil => intro s; rfl
  | cons a t ih =>
    intro s
    rw [List.foldl_cons, ih]
    cases hau : a.author.user with
    | none =>
      have hm : specMatchesUser username a = false := by simp [specMatchesUser, hau]
      have hs : commitStep username s a = s := by simp [commitStep, hau]
      simp [hm, hs]
    | some u =>
      by_cases h : jsToLower u.login = jsToLower username
      · have hm : specMatchesUser username a = true := by simp [specMatchesUser, hau, h]
        have hs : commitStep username s a =
            ⟨s.additionsCount + a.additions.getD 0,
              s.deletionsCount + a.deletions.getD 0⟩ := by
          simp [commitStep, hau, h]
        simp [hm, hs, Nat.add_assoc]
      · have hm : specMatchesUser username a = false := by simp [specMatchesUser, hau, h]
        have hs : commitStep username s a = s := by simp [commitStep, hau, h]
        simp [hm, hs]

/-- The aggregation loop computes the two sums over the matching records. -/
theorem aggregateCommits_eq_sums (l : List CommitRecord) (username : String) :
    aggregateCommits l username =
      ⟨((l.filter (specMatchesUser username)).map fun c => c.additions.getD 0).sum,
        ((l.filter (specMatchesUser username)).map fun c => c.deletions.getD 0).sum⟩ := by
  unfold aggregateCommits
  rw [foldl_commitStep]
  simp

/-- C1: the Commit Reconciler deduplicates by full structural equality of
commit records: every record occurring anywhere in the branch histories —
in particular a record listed identically by two different
`BranchHistory` entries — survives with count exactly 1 in the
deduplicated list, so it contributes to the aggregate exactly once.
Because the equality is structural over every field, two records that
share an oid but differ in author/additions/deletions are distinct
records, so instantiating this theorem at each of them shows both are
retained with count 1 and hence both counted. -/
theorem claim_C1 (bc : List BranchHistory) (c : CommitRecord)
    (hc : c ∈ allBranchCommits bc) :
    (filterDuplicateCommits bc).count c = 1 :=
  List.count_eq_one_of_mem (nodup_filterDuplicateCommits bc)
    (mem_filterDuplicateCommits.mpr hc)

/-- Witness for C1: in a cross-branch scenario where `sampleCommitA` is
listed identically by both branches, it survives with count exactly 1;
and `sampleCommitB`, `sampleCommitB2` — same oid, different `additions` —
are distinct records that each survive with count 1. -/
theorem claim_C1_witness :
    (filterDuplicateCommits [mkBranch "main" [sampleCommitA, sampleCommitB],
        mkBranch "dev" [sampleCommitA, sampleCommitB2]]).count sampleCommitA = 1 ∧
      (filterDuplicateCommits [mkBranch "main" [sampleCommitA, sampleCommitB],
        mkBranch "dev" [sampleCommitA, sampleCommitB2]]).count sampleCommitB = 1 ∧
      (filterDuplicateCommits [mkBranch "main" [sampleCommitA, sampleCommitB],
        mkBranch "dev" [sampleCommitA, sampleCommitB2]]).count sampleCommitB2 = 1 ∧
      sampleCommitB.oid = sampleCommitB2.oid ∧ sampleCommitB ≠ sampleCommitB2 :=
  ⟨claim_C1 [mkBranch "main" [sampleCommitA, sampleCommitB],
      mkBranch "dev" [sampleCommitA, sampleCommitB2]] sampleCommitA (by decide),
    claim_C1 [mkBranch "main" [sampleCommitA, sampleCommitB],
      mkBranch "dev" [sampleCommitA, sampleCommitB2]] sampleCommitB (by decide),
    claim_C1 [mkBranch "main" [sampleCommitA, sampleCommitB],
      mkBranch "dev" [sampleCommitA, sampleCommitB2]] sampleCommitB2 (by decide),
    by decide, by decide⟩

/-- C2: for every branch-history input and login, the aggregate equals the
sum of `additions` and the sum of `deletions` over exactly the
deduplicated records whose `author.user` is non-null and whose login
equals the requested login case-insensitively; a null user is skipped by
the filter and a missing `additions`/`deletions` contributes zero via
`getD 0`. -/
theorem claim_C2 (bc : List BranchHistory) (username : String) :
    totalAdditionsAndDeletionsByUser bc username =
      ⟨(((filterDuplicateCommits bc).filter (specMatchesUser username)).map
          fun c => c.additions.getD 0).sum,
        (((filterDuplicateCommits bc).filter (specMatchesUser username)).map
          fun c => c.deletions.getD 0).sum⟩ :=
  aggregateCommits_eq_sums (filterDuplicateCommits bc) username

/-- C8: the Commit Reconciler is deterministic despite the unordered
intermediate set: aggregating the unique commits in any enumeration order
(any permutation of the deduplicated list) yields exactly the totals of
`totalAdditionsAndDeletionsByUser`, so two runs on the same input always
agree. -/
theorem claim_C8 (bc : List BranchHistory) (username : String)
    (l : List CommitRecord) (hl : l.Perm (filterDuplicateCommits bc)) :
    aggregateCommits l username = totalAdditionsAndDeletionsByUser bc username := by
  have hp := hl.filter (specMatchesUser username)
  rw [totalAdditionsAndDeletionsByUser, aggregateCommits_eq_sums,
    aggregateCommits_eq_sums, (hp.map fun c => c.additions.getD 0).sum_eq,
    (hp.map fun c => c.deletions.getD 0).sum_eq]

/-- Witness for C8: enumerating the two unique commits of the sample
branch in swapped order still produces the reconciler's totals. -/
theorem claim_C8_witness :
    aggregateCommits [sampleCommitB, sampleCommitA] "testuser" =
      totalAdditionsAndDeletionsByUser
        [mkBranch "main" [sampleCommitA, sampleCommitB]] "testuser" :=
  claim_C8 [mkBranch "main" [sampleCommitA, sampleCommitB]] "testuser"
    [sampleCommitB, sampleCommitA] (by decide)

/-- C4: for every metadata response in which exactly one of `user` and
`organization` is non-null and its nested repository is present and not
private, `fetchRepoMeta` succeeds with that repository's fields together
with `starCount` equal to the repository's `stargazers.totalCount`,
symmetrically for user-owned and organization-owned input. -/
theorem claim_C4 (data : MetaResponse) :
    (∀ o r, data.user = .val o → data.organization = .null →
      o.repository = some r → r.isPrivate = false →
      ∃ m, fetchRepoMeta data = .ok m ∧ m.name = r.name ∧
        m.nameWithOwner = r.nameWithOwner ∧ m.isPrivate = r.isPrivate ∧
        m.isArchived = r.isArchived ∧ m.isTemplate = r.isTemplate ∧
        m.stargazers = r.stargazers ∧ m.description = r.description ∧
        m.primaryLanguage = r.primaryLanguage ∧ m.forkCount = r.forkCount ∧
        m.starCount = r.stargazers.totalCount) ∧
    (∀ o r, data.organization = .val o → data.user = .null →
      o.repository = some r → r.isPrivate = false →
      ∃ m, fetchRepoMeta data = .ok m ∧ m.name = r.name ∧
        m.nameWithOwner = r.nameWithOwner ∧ m.isPrivate = r.isPrivate ∧
        m.isArchived = r.isArchived ∧ m.isTemplate = r.isTemplate ∧
        m.stargazers = r.stargazers ∧ m.description = r.description ∧
        m.primaryLanguage = r.primaryLanguage ∧ m.forkCount = r.forkCount ∧
        m.starCount = r.stargazers.totalCount) := by
  obtain ⟨u, og⟩ := data
  constructor
  · intro o r h1 h2 hrep hpriv
    cases h1
    cases h2
    refine ⟨repoMetaOf r, ?_, rfl, rfl, rfl, rfl, rfl, rfl, rfl, rfl, rfl, rfl⟩
    simp [fetchRepoMeta, JsField.isTruthy, JsField.isNull, ownerRepoMeta, hrep, hpriv]
  · intro o r h1 h2 hrep hpriv
    cases h1
    cases h2
    refine ⟨repoMetaOf r, ?_, rfl, rfl, rfl, rfl, rfl, rfl, rfl, rfl, rfl, rfl⟩
    simp [fetchRepoMeta, JsField.isTruthy, JsField.isNull, ownerRepoMeta, hrep, hpriv]

/-- Witness for C4: the sample public repository is returned with
`starCount = 0` both when user-owned and when organization-owned. -/
theorem claim_C4_witness :
    (∃ m, fetchRepoMeta ⟨.val ⟨some sampleRepository⟩, .null⟩ = .ok m ∧
      m.name = sampleRepository.name ∧
      m.nameWithOwner = sampleRepository.nameWithOwner ∧
      m.isPrivate = sampleRepository.isPrivate ∧
      m.isArchived = sampleRepository.isArchived ∧
      m.isTemplate = sampleRepository.isTemplate ∧
      m.stargazers = sampleRepository.stargazers ∧
      m.description = sampleRepository.description ∧
      m.primaryLanguage = sampleRepository.primaryLanguage ∧
      m.forkCount = sampleRepository.forkCount ∧
      m.starCount = sampleRepository.stargazers.totalCount) ∧
    (∃ m, fetchRepoMeta ⟨.null, .val ⟨some sampleRepository⟩⟩ = .ok m ∧
      m.name = sampleRepository.name ∧
      m.nameWithOwner = sampleRepository.nameWithOwner ∧
      m.isPrivate = sampleRepository.isPrivate ∧
      m.isArchived = sampleRepository.isArchived ∧
      m.isTemplate = sampleRepository.isTemplate ∧
      m.stargazers = sampleRepository.stargazers ∧
      m.description = sampleRepository.description ∧
      m.primaryLanguage = sampleRepository.primaryLanguage ∧
      m.forkCount = sampleRepository.forkCount ∧
      m.starCount = sampleRepository.stargazers.totalCount) :=
  ⟨(claim_C4 ⟨.val ⟨some sampleRepository⟩, .null⟩).1 ⟨some sampleRepository⟩
      sampleRepository rfl rfl rfl rfl,
    (claim_C4 ⟨.null, .val ⟨some sampleRepository⟩⟩).2 ⟨some sampleRepository⟩
      sampleRepository rfl rfl rfl rfl⟩

/-- C10: owner resolution requires the sibling namespace to be strictly
null.  When `user` is a present object but `organization` is undefined
(absent from the response) rather than null — or symmetrically — the
strict `=== null` comparisons make both branch guards false and
`fetchRepoMeta` falls through to the `Unexpected behavior` error instead
of resolving the non-null namespace. -/
theorem claim_C10 (data : MetaResponse) :
    (∀ o, data.user = .val o → data.organization = .undef →
      fetchRepoMeta data = .error (.error "Unexpected behavior")) ∧
    (∀ o, data.organization = .val o → data.user = .undef →
      fetchRepoMeta data = .error (.error "Unexpected behavior")) := by
  obtain ⟨u, og⟩ := data
  constructor
  · intro o h1 h2
    cases h1
    cases h2
    rfl
  · intro o h1 h2
    cases h1
    cases h2
    rfl

/-- Witness for C10: a present user object next to an undefined
organization field is rejected as unexpected, in both orientations. -/
theorem claim_C10_witness :
    fetchRepoMeta ⟨.val ⟨some sampleRepository⟩, .undef⟩ =
        .error (.error "Unexpected behavior") ∧
      fetchRepoMeta ⟨.undef, .val ⟨some sampleRepository⟩⟩ =
        .error (.error "Unexpected behavior") :=
  ⟨(claim_C10 ⟨.val ⟨some sampleRepository⟩, .undef⟩).1 ⟨some sampleRepository⟩ rfl rfl,
    (claim_C10 ⟨.undef, .val ⟨some sampleRepository⟩⟩).2 ⟨some sampleRepository⟩ rfl rfl⟩

/-- C5: over metadata responses whose `user` and `organization` fields are
either null or a present object (the shape the data model and the GraphQL
contract allow), `fetchRepoMeta` fails — returning no repository record —
in exactly these cases: both namespaces null (`Not found`, the
`NotFound("owner")` kind); exactly one namespace non-null whose nested
repository is null or private (`User Repository Not found` /
`Organization Repository Not found`); both namespaces non-null
(`Unexpected behavior`). -/
theorem claim_C5 (data : MetaResponse)
    (hu : data.user ≠ .undef) (ho : data.organization ≠ .undef) :
    ((∃ e, fetchRepoMeta data = .error e) ↔
      (data.user = .null ∧ data.organization = .null) ∨
      (∃ o, data.user = .val o ∧ data.organization = .null ∧ specOwnerRepoBad o) ∨
      (∃ o, data.organization = .val o ∧ data.user = .null ∧ specOwnerRepoBad o) ∨
      (∃ o o', data.user = .val o ∧ data.organization = .val o')) ∧
    (data.user = .null → data.organization = .null →
      fetchRepoMeta data = .error (.error "Not found")) ∧
    (∀ o, data.user = .val o → data.organization = .null → specOwnerRepoBad o →
      fetchRepoMeta data = .error (.error "User Repository Not found")) ∧
    (∀ o, data.organization = .val o → data.user = .null → specOwnerRepoBad o →
      fetchRepoMeta data = .error (.error "Organization Repository Not found")) ∧
    (∀ o o', data.user = .val o → data.organization = .val o' →
      fetchRepoMeta data = .error (.error "Unexpected behavior")) := by
  obtain ⟨u, og⟩ := data
  cases u with
  | undef => exact absurd rfl hu
  | null =>
    cases og with
    | undef => exact absurd rfl ho
    | null =>
      refine ⟨?_, ?_, ?_, ?_, ?_⟩ <;>
        simp [fetchRepoMeta, JsField.isTruthy, JsField.isNull]
    | val o =>
      obtain ⟨rep⟩ := o
      cases rep with
      | none =>
        refine ⟨?_, ?_, ?_, ?_, ?_⟩ <;>
          simp [fetchRepoMeta, JsField.isTruthy, JsField.isNull, ownerRepoMeta,
            specOwnerRepoBad]
      | some r =>
        cases hpr : r.isPrivate <;>
          (refine ⟨?_, ?_, ?_, ?_, ?_⟩ <;>
            simp [fetchRepoMeta, JsField.isTruthy, JsField.isNull, ownerRepoMeta,
              specOwnerRepoBad, hpr])
  | val o =>
    cases og with
    | undef => exact absurd rfl ho
    | null =>
      obtain ⟨rep⟩ := o
      cases rep with
      | none =>
        refine ⟨?_, ?_, ?_, ?_, ?_⟩ <;>
          simp [fetchRepoMeta, JsField.isTruthy, JsField.isNull, ownerRepoMeta,
            specOwnerRepoBad]
      | some r =>
        cases hpr : r.isPrivate <;>
          (refine ⟨?_, ?_, ?_, ?_, ?_⟩ <;>
            simp [fetchRepoMeta, JsField.isTruthy, JsField.isNull, ownerRepoMeta,
              specOwnerRepoBad, hpr])
    | val o' =>
      refine ⟨?_, ?_, ?_, ?_, ?_⟩ <;>
        simp [fetchRepoMeta, JsField.isTruthy, JsField.isNull]

/-- Witness for C5: the both-null response fails with the owner-not-found
error. -/
theorem claim_C5_witness :
    fetchRepoMeta ⟨.null, .null⟩ = .error (.error "Not found") :=
  (claim_C5 ⟨.null, .null⟩ (by decide) (by decide)).2.1 rfl rfl

/-- C6: the commit-retrieval path fails, producing no aggregate, in
exactly these cases: a null user from the identity lookup (`Not found`);
an absent repository or absent ref list (`Repository or refs not found`);
a present but empty ref list (`No commits found`); otherwise it delegates
the ref nodes to `totalAdditionsAndDeletionsByUser`. -/
theorem claim_C6 (username : String) (idRes : IdResponse)
    (commitsRes : CommitsResponse) :
    (idRes.user = none →
      fetchRepoCommits username idRes commitsRes = .error (.error "Not found")) ∧
    (∀ uid, idRes.user = some uid → commitsRes.repository = none →
      fetchRepoCommits username idRes commitsRes =
        .error (.error "Repository or refs not found")) ∧
    (∀ uid repo, idRes.user = some uid → commitsRes.repository = some repo →
      repo.refs = none →
      fetchRepoCommits username idRes commitsRes =
        .error (.error "Repository or refs not found")) ∧
    (∀ uid repo refs, idRes.user = some uid → commitsRes.repository = some repo →
      repo.refs = some refs → refs.nodes = [] →
      fetchRepoCommits username idRes commitsRes = .error (.error "No commits found")) ∧
    (∀ uid repo refs, idRes.user = some uid → commitsRes.repository = some repo →
      repo.refs = some refs → refs.nodes ≠ [] →
      fetchRepoCommits username idRes commitsRes =
        .ok (totalAdditionsAndDeletionsByUser refs.nodes username)) := by
  refine ⟨fun h => ?_, fun uid h1 h2 => ?_, fun uid repo h1 h2 h3 => ?_,
    fun uid repo refs h1 h2 h3 h4 => ?_, fun uid repo refs h1 h2 h3 h4 => ?_⟩
  · simp [fetchRepoCommits, h]
  · simp [fetchRepoCommits, h1, h2]
  · simp [fetchRepoCommits, h1, h2, h3]
  · simp [fetchRepoCommits, h1, h2, h3, h4]
  · simp [fetchRepoCommits, h1, h2, h3, List.length_eq_zero, h4]

/-- Witness for C6: a null identity, an absent repository, an empty ref
list, and a populated ref list each produce the stated outcome. -/
theorem claim_C6_witness :
    fetchRepoCommits "testuser" ⟨none⟩ ⟨none⟩ = .error (.error "Not found") ∧
      fetchRepoCommits "testuser" ⟨some ⟨"1"⟩⟩ ⟨none⟩ =
        .error (.error "Repository or refs not found") ∧
      fetchRepoCommits "testuser" ⟨some ⟨"1"⟩⟩ ⟨some ⟨some ⟨[]⟩⟩⟩ =
        .error (.error "No commits found") ∧
      fetchRepoCommits "testuser" ⟨some ⟨"1"⟩⟩
          ⟨some ⟨some ⟨[mkBranch "main" [sampleCommitA]]⟩⟩⟩ =
        .ok (totalAdditionsAndDeletionsByUser [mkBranch "main" [sampleCommitA]]
          "testuser") :=
  ⟨(claim_C6 "testuser" ⟨none⟩ ⟨none⟩).1 rfl,
    (claim_C6 "testuser" ⟨some ⟨"1"⟩⟩ ⟨none⟩).2.1 ⟨"1"⟩ rfl rfl,
    (claim_C6 "testuser" ⟨some ⟨"1"⟩⟩ ⟨some ⟨some ⟨[]⟩⟩⟩).2.2.2.1 ⟨"1"⟩ ⟨some ⟨[]⟩⟩
      ⟨[]⟩ rfl rfl rfl rfl,
    (claim_C6 "testuser" ⟨some ⟨"1"⟩⟩
        ⟨some ⟨some ⟨[mkBranch "main" [sampleCommitA]]⟩⟩⟩).2.2.2.2 ⟨"1"⟩
      ⟨some ⟨[mkBranch "main" [sampleCommitA]]⟩⟩ ⟨[mkBranch "main" [sampleCommitA]]⟩
      rfl rfl rfl (by decide)⟩

/-- C7: when `username` or `reponame` (or both) is empty, `fetchRepo`
fails with a `MissingParamError` naming exactly the missing parameters —
both when both are empty, only the absent one otherwise — and the result
does not depend on the remote environment, so no network response is
consulted. -/
theorem claim_C7 (username reponame : String) (env env' : RemoteEnv)
    (h : username = "" ∨ reponame = "") :
    fetchRepo username reponame env = fetchRepo username reponame env' ∧
    (username = "" → reponame = "" →
      fetchRepo username reponame env =
        .error (.missingParam ["username", "repo"] urlExample)) ∧
    (username = "" → reponame ≠ "" →
      fetchRepo username reponame env =
        .error (.missingParam ["username"] urlExample)) ∧
    (username ≠ "" → reponame = "" →
      fetchRepo username reponame env =
        .error (.missingParam ["repo"] urlExample)) := by
  by_cases hu : username = ""
  · by_cases hr : reponame = ""
    · refine ⟨?_, ?_, ?_, ?_⟩ <;> simp [fetchRepo, hu, hr]
    · refine ⟨?_, ?_, ?_, ?_⟩ <;> simp [fetchRepo, hu, hr]
  · rcases h with h | hr
    · exact absurd h hu
    · refine ⟨?_, ?_, ?_, ?_⟩ <;> simp [fetchRepo, hu, hr]

/-- Witness for C7: with both parameters empty the call fails citing both
missing, and the failure is the same whatever the remote responses are. -/
theorem claim_C7_witness :
    fetchRepo "" "" sampleEnv = fetchRepo "" "" emptyEnv ∧
      fetchRepo "" "" sampleEnv =
        .error (.missingParam ["username", "repo"] urlExample) :=
  ⟨(claim_C7 "" "" sampleEnv emptyEnv (Or.inl rfl)).1,
    (claim_C7 "" "" sampleEnv emptyEnv (Or.inl rfl)).2.1 rfl rfl⟩

/-- Lookup of the commit-stats fields and the star counter in the record
`fetchRepo` builds by spreading the metadata record and the commit-stats
record into one flat object. -/
theorem getField_spread_commitStats (meta : RepoMeta) (stats : CommitStats) :
    getField (spreadMerge meta.toObj stats.toObj) "additionsCount" =
        some (.nat stats.additionsCount) ∧
      getField (spreadMerge meta.toObj stats.toObj) "deletionsCount" =
        some (.nat stats.deletionsCount) ∧
      getField (spreadMerge meta.toObj stats.toObj) "starCount" =
        some (.nat meta.starCount) :=
  ⟨rfl, rfl, rfl⟩

/-- Counterexample to C3 as stated: in the end-to-end scenario (two
non-overlapping commits with 10/5 and 15/3 line changes authored by the
requested user, metadata with zero stargazers) the record `fetchRepo`
returns has no `totalAdditions` or `totalDeletions` field at all — the
commit-stats fields are spread under the names `additionsCount` and
`deletionsCount`. -/
theorem claim_C3_counterexample :
    fetchRepo "testuser" "tlsscanner" sampleEnv = .ok sampleMergedRecord ∧
      getField sampleMergedRecord "totalAdditions" = none ∧
      getField sampleMergedRecord "totalDeletions" = none ∧
      getField sampleMergedRecord "additionsCount" = some (.nat 25) ∧
      getField sampleMergedRecord "deletionsCount" = some (.nat 8) :=
  ⟨rfl, rfl, rfl, rfl, rfl⟩

/-- C3 (amended): on success `fetchRepo` returns the single flat record
obtained as the shallow field union (spread) of the metadata result and
the commit-stats result; in the scenario of two non-overlapping commits
with 10/5 and 15/3 line changes authored by the target user and metadata
with zero stargazers, the returned record contains `additionsCount = 25`,
`deletionsCount = 8` and `starCount = 0` (the source names the aggregate
fields `additionsCount`/`deletionsCount`, not
`totalAdditions`/`totalDeletions`). -/
theorem claim_C3 (username reponame : String) (env : RemoteEnv)
    (meta : RepoMeta) (stats : CommitStats)
    (hu : username ≠ "") (hr : reponame ≠ "")
    (hm : fetchRepoMeta env.metaRes = .ok meta)
    (hc : fetchRepoCommits username env.idRes env.commitsRes = .ok stats) :
    fetchRepo username reponame env = .ok (spreadMerge meta.toObj stats.toObj) ∧
      getField (spreadMerge meta.toObj stats.toObj) "additionsCount" =
        some (.nat stats.additionsCount) ∧
      getField (spreadMerge meta.toObj stats.toObj) "deletionsCount" =
        some (.nat stats.deletionsCount) ∧
      getField (spreadMerge meta.toObj stats.toObj) "starCount" =
        some (.nat meta.starCount) := by
  have h1 : ¬(username = "" ∧ reponame = "") := fun hand => hu hand.1
  refine ⟨?_, getField_spread_commitStats meta stats⟩
  unfold fetchRepo
  rw [if_neg h1, if_neg hu, if_neg hr, hm, hc]

/-- Witness for C3: the end-to-end scenario produces the flat spread of
the sample metadata (star count 0) and the 25/8 aggregate. -/
theorem claim_C3_witness :
    fetchRepo "testuser" "tlsscanner" sampleEnv =
      .ok (spreadMerge (repoMetaOf sampleRepository).toObj
        (CommitStats.mk 25 8).toObj) :=
  (claim_C3 "testuser" "tlsscanner" sampleEnv (repoMetaOf sampleRepository)
    (CommitStats.mk 25 8) (by decide) (by decide) rfl rfl).1

/-- Counterexample to C9 as stated: the failure raised when neither owner
namespace resolves and the failure raised when the identity lookup returns
a null user are the very same error value `Error("Not found")`, so a
caller of `fetchRepo` cannot tell which of the two occurred. -/
theorem claim_C9_counterexample :
    fetchRepoMeta ⟨.null, .null⟩ = .error (.error "Not found") ∧
      fetchRepoCommits "diekgbbtt" ⟨none⟩ ⟨none⟩ = .error (.error "Not found") :=
  ⟨rfl, rfl⟩

/-- C9 (amended): the error kinds of the taxonomy are pairwise
distinguishable except for the two the claim singles out: the
owner-not-found failure of the metadata path and the identity-not-found
failure of the commit path both surface as `Error("Not found")` and cannot
be told apart; every other kind carries a distinct error value. -/
theorem claim_C9 :
    fetchRepoMeta ⟨.null, .null⟩ = .error (.error "Not found") ∧
      fetchRepoCommits "diekgbbtt" ⟨none⟩ ⟨none⟩ = .error (.error "Not found") ∧
      fetchRepoMeta ⟨.val ⟨none⟩, .null⟩ =
        .error (.error "User Repository Not found") ∧
      fetchRepoMeta ⟨.null, .val ⟨none⟩⟩ =
        .error (.error "Organization Repository Not found") ∧
      fetchRepoMeta ⟨.val ⟨none⟩, .val ⟨none⟩⟩ =
        .error (.error "Unexpected behavior") ∧
      fetchRepoCommits "diekgbbtt" ⟨some ⟨"1"⟩⟩ ⟨none⟩ =
        .error (.error "Repository or refs not found") ∧
      fetchRepoCommits "diekgbbtt" ⟨some ⟨"1"⟩⟩ ⟨some ⟨some ⟨[]⟩⟩⟩ =
        .error (.error "No commits found") ∧
      fetchRepo "" "" emptyEnv =
        .error (.missingParam ["username", "repo"] urlExample) ∧
      List.Pairwise (fun a b => a ≠ b)
        [FetchError.error "Not found",
          FetchError.error "User Repository Not found",
          FetchError.error "Organization Repository Not found",
          FetchError.error "Unexpected behavior",
          FetchError.error "Repository or refs not found",
          FetchError.error "No commits found",
          FetchError.missingParam ["username", "repo"] urlExample] := by
  refine ⟨rfl, rfl, rfl, rfl, rfl, rfl, rfl, rfl, ?_⟩
  decide

/-- Witness for C2: the sum characterization instantiated on one branch
with two commits, queried with a differently-cased login. -/
theorem claim_C2_witness :
    totalAdditionsAndDeletionsByUser
        [mkBranch "main" [sampleCommitA, sampleCommitB]] "TestUser" =
      ⟨(((filterDuplicateCommits [mkBranch "main" [sampleCommitA, sampleCommitB]]).filter
          (specMatchesUser "TestUser")).map fun c => c.additions.getD 0).sum,
        (((filterDuplicateCommits [mkBranch "main" [sampleCommitA, sampleCommitB]]).filter
          (specMatchesUser "TestUser")).map fun c => c.deletions.getD 0).sum⟩ :=
  claim_C2 [mkBranch "main" [sampleCommitA, sampleCommitB]] "TestUser"
